import Mathlib

/-!
A shallow embedding of the phoneBookAPI contact repository (package `core`,
file with `MongoPhoneBook`, and the handler's size validator).  The MongoDB
collection is modelled as an explicit list of contacts threaded through the
mutating operations; the driver's find/insert/update/delete behaviour on that
list is modelled from its documented semantics (limit/skip slicing with the
server's rejection of a negative skip, exact-match filters under `omitempty`
storage, first-match update/delete, the rejection of an empty `$set`
document, the immutable `_id` field).  Machine integers are modelled as
unbounded `Int`/`Nat` except where the source's behaviour depends on the
width (`strconv.Atoi`'s 64-bit range error); Go strings are Lean strings
over their character lists.
-/

namespace PhoneBook

/-- The `definition.Contact` struct.  `id` models the `primitive.ObjectID`
field in its 24-hex-character string form; `none` stands for the zero
ObjectID, which the `omitempty` bson tag omits from encoded documents. -/
structure Contact where
  id        : Option String
  firstName : String
  lastName  : String
  phone     : String
  address   : String
deriving DecidableEq, Repr

/-- A character matched by the class `[0-9]` of `onlyDigitsRegex`. -/
def isDigitChar (c : Char) : Bool := '0' ≤ c && c ≤ '9'

/-- A character matched by the class `[a-zA-Z]` of `onlyLettersRegex`. -/
def isLetterChar (c : Char) : Bool :=
  ('a' ≤ c && c ≤ 'z') || ('A' ≤ c && c ≤ 'Z')

/-- `onlyDigitsRegex.MatchString`: the regex is anchored, `^[0-9]+$`, so it
holds iff the string is non-empty and all characters are digits. -/
def onlyDigits (s : String) : Bool := !s.data.isEmpty && s.data.all isDigitChar

/-- `onlyLettersRegex.MatchString`: anchored `^[a-zA-Z]+$`. -/
def onlyLetters (s : String) : Bool := !s.data.isEmpty && s.data.all isLetterChar

def ErrorMissingFirstName : String := "can\x27t add contact without first name"
def ErrorMissingPhone : String := "can\x27t add contact without phone number"
def ErrorMissingID : String := "doesn\x27t sent contact id"
def ErrorInvalidPhone : String := "invalid phone number. phone should include digits only"
def ErrorInvalidFirstName : String := "invalid first name. name should include letters only"
def ErrorInvalidLastName : String := "invalid last name. name should include letters only"
def BadRequest : String := "BadRequest"
def InternalServerError : String := "InternalServerError"

/-- `core.validateContact`: the five checks in the source order; `none`
means the Go function returned `nil`. -/
def validateContact (contact : Contact) : Option String :=
  if contact.firstName = "" then some ErrorMissingFirstName
  else if !onlyLetters contact.firstName then some ErrorInvalidFirstName
  else if contact.lastName ≠ "" && !onlyLetters contact.lastName then some ErrorInvalidLastName
  else if contact.phone = "" then some ErrorMissingPhone
  else if !onlyDigits contact.phone then some ErrorInvalidPhone
  else none

/-- The digit run accepted by `strconv.Atoi` after the optional sign:
non-empty, decimal digits only, read as an unbounded natural number;
`atoi` applies the 64-bit range check on top. -/
def digitsToNat (cs : List Char) : Option Nat :=
  if cs.isEmpty then none
  else if cs.all isDigitChar then
    some (cs.foldl (fun a c => a * 10 + (c.toNat - 48)) 0)
  else none

/-- `strconv.Atoi` on a 64-bit platform: an optional `+`/`-` sign followed
by decimal digits, and a range check — a value outside
`[-2^63, 2^63-1]` makes `Atoi` return `ErrRange`, a non-nil error, which
`none` also covers here. -/
def atoi (s : String) : Option Int :=
  match s.data with
  | [] => none
  | c :: rest =>
    if c = '-' then
      match digitsToNat rest with
      | none => none
      | some n => if (n : Int) ≤ 9223372036854775808 then some (-(n : Int)) else none
    else if c = '+' then
      match digitsToNat rest with
      | none => none
      | some n => if (n : Int) ≤ 9223372036854775807 then some (n : Int) else none
    else
      match digitsToNat (c :: rest) with
      | none => none
      | some n => if (n : Int) ≤ 9223372036854775807 then some (n : Int) else none

/-- `core.validatePageParam`: empty list or empty first string default to
page 1, the literal `"0"` is rejected, everything else goes to `Atoi`. -/
def validatePageParam (pageParam : List String) : Except String Int :=
  match pageParam with
  | [] => Except.ok 1
  | pageStr :: _ =>
    if pageStr = "" then Except.ok 1
    else if pageStr = "0" then Except.error "page number must be positive"
    else
      match atoi pageStr with
      | none => Except.error ("strconv.Atoi: parsing \"" ++ pageStr ++ "\": invalid syntax")
      | some page => Except.ok page

/-- A hex digit as accepted by `encoding/hex.DecodeString`. -/
def isHexDigitChar (c : Char) : Bool :=
  ('0' ≤ c && c ≤ '9') || ('a' ≤ c && c ≤ 'f') || ('A' ≤ c && c ≤ 'F')

/-- Lower-casing of a hex digit: `hex.DecodeString` reads `A`–`F` and
`a`–`f` as the same byte, so ObjectIDs compare case-insensitively; the
canonical string form is lower case. -/
def hexCharToLower (c : Char) : Char :=
  if 'A' ≤ c && c ≤ 'F' then Char.ofNat (c.toNat + 32) else c

def ErrorInvalidObjectID : String := "the provided hex string is not a valid ObjectID"

/-- `primitive.ObjectIDFromHex`: a 24-character length check first
(failing with `ErrInvalidHex`), then hex decoding; the result is the
decoded ObjectID in its canonical lower-case hex form. -/
def objectIDFromHex (s : String) : Except String String :=
  if s.data.length ≠ 24 then Except.error ErrorInvalidObjectID
  else if s.data.all isHexDigitChar then
    Except.ok (String.mk (s.data.map hexCharToLower))
  else Except.error "encoding/hex: invalid byte in ObjectID hex string"

/-- Result triple of the read operations `([]*definition.Contact, string, error)`:
a `nil` Go slice and an empty one both model as `[]`; `err = none` is a
`nil` error. -/
structure QueryResult where
  contacts  : List Contact
  errorKind : String
  err       : Option String
deriving DecidableEq, Repr

/-- Result of `DeleteContact`/`UpdateContact`, `(int64, string, error)`,
together with the collection state after the call. -/
structure MutResult where
  count     : Int
  errorKind : String
  err       : Option String
  newStore  : List Contact
deriving DecidableEq, Repr

/-- Result of `AddContact`, `(string, string, error)`, together with the
collection state after the call. -/
structure AddResult where
  message   : String
  errorKind : String
  err       : Option String
  newStore  : List Contact
deriving DecidableEq, Repr

/-- The driver's `Find` with `bson.M{}` and the options set by
`GetContactWithPagination`: `SetLimit(limitPerPage)` and
`SetSkip(int64(page-1) * limitPerPage)`.  The MongoDB find command rejects
a negative skip value with an error. -/
def mongoFindPage (limitPerPage : Nat) (store : List Contact) (skip : Int) :
    Except String (List Contact) :=
  if skip < 0 then Except.error "Skip value must be non-negative"
  else Except.ok ((store.drop skip.toNat).take limitPerPage)

/-- `core.MongoPhoneBook.GetContactWithPagination`.  `limitPerPage` is
`config.Static.LimitPerPage`.  A driver find error (negative skip) takes
the `InternalServerError` branch of the source; cursor decoding of a
stored contact cannot fail in the model. -/
def GetContactWithPagination (limitPerPage : Nat) (store : List Contact)
    (pageParam : List String) : QueryResult :=
  match validatePageParam pageParam with
  | Except.error e => ⟨[], BadRequest, some e⟩
  | Except.ok page =>
    match mongoFindPage limitPerPage store ((page - 1) * limitPerPage) with
    | Except.error e => ⟨[], InternalServerError, some e⟩
    | Except.ok contacts => ⟨contacts, "", none⟩

/-- Whether a stored contact satisfies one exact-match filter entry
`key = value`.  The four string fields are stored under their bson tags,
but every tag carries `omitempty`, so a zero-valued field is ABSENT from
the stored document and a BSON equality filter (also on `""`) never
matches an absent field: a match needs the stored field non-empty and
equal to the value.  Any other key (including `_id`, whose stored value
is an ObjectID, never a string) matches no document. -/
def contactFieldMatch (c : Contact) (key value : String) : Bool :=
  if key = "firstName" then c.firstName = value && c.firstName ≠ ""
  else if key = "lastName" then c.lastName = value && c.lastName ≠ ""
  else if key = "phone" then c.phone = value && c.phone ≠ ""
  else if key = "address" then c.address = value && c.address ≠ ""
  else false

/-- The filter built by `SearchContact`: for every query key the FIRST
value of its list (`filter[key] = value[0]`) must match exactly. -/
def matchesQuery (query : List (String × List String)) (c : Contact) : Bool :=
  query.all (fun kv => contactFieldMatch c kv.1 (kv.2.headD ""))

/-- `core.MongoPhoneBook.SearchContact`.  `url.Values` is a map from keys
to non-empty value lists, modelled as an association list with distinct
keys; `len(query) == 0` delegates to page-1 pagination. -/
def SearchContact (limitPerPage : Nat) (store : List Contact)
    (query : List (String × List String)) : QueryResult :=
  if query.isEmpty then GetContactWithPagination limitPerPage store ["1"]
  else ⟨store.filter (matchesQuery query), "", none⟩

/-- The driver's `DeleteOne` with filter `bson.M{"_id": id}`: removes the
first stored document with that id. -/
def eraseFirst (store : List Contact) (oid : String) : List Contact :=
  match store with
  | [] => []
  | c :: rest => if c.id = some oid then rest else c :: eraseFirst rest oid

/-- `core.MongoPhoneBook.DeleteContact`. -/
def DeleteContact (store : List Contact) (idParam : String) : MutResult :=
  if idParam = "" then ⟨0, BadRequest, some ErrorMissingID, store⟩
  else
    match objectIDFromHex idParam with
    | Except.error e => ⟨-1, BadRequest, some e, store⟩
    | Except.ok oid =>
      if store.any (fun c => c.id = some oid) then ⟨1, "", none, eraseFirst store oid⟩
      else ⟨0, "", none, store⟩

/-- The effect of `$set` with the bson encoding of `contact`: every field
carries `omitempty`, so only the fields with a non-zero value appear in
the update document and overwrite the stored value.  A `$set` that names
`_id` with the matched document's own id is a no-op, so the id is kept. -/
def setFields (c p : Contact) : Contact :=
  { id        := c.id
    firstName := if p.firstName = "" then c.firstName else p.firstName
    lastName  := if p.lastName = "" then c.lastName else p.lastName
    phone     := if p.phone = "" then c.phone else p.phone
    address   := if p.address = "" then c.address else p.address }

/-- The driver's `UpdateOne`: rewrites the first stored document whose id
matches. -/
def updateFirst (store : List Contact) (oid : String) (p : Contact) : List Contact :=
  match store with
  | [] => []
  | c :: rest =>
    if c.id = some oid then setFields c p :: rest else c :: updateFirst rest oid p

/-- The server's FailedToParse rejection of `UpdateOne` when the partial
contact's bson encoding is the empty document: with every field zero and
every tag `omitempty`, the command carries `{"$set": {}}`, which MongoDB
refuses before matching anything. -/
def ErrorEmptySet : String := "FailedToParse: \x27$set\x27 is empty. You must specify a field"

/-- `core.MongoPhoneBook.UpdateContact`.  An all-zero partial contact
encodes as an empty `$set` document, which the server rejects with a
FailedToParse error regardless of whether the filter matches; when the
`$set` document names `_id` with a value different from the matched
document's id, the server rejects the update (the `_id` field is
immutable) and the driver returns that error; `ModifiedCount` is 0 when
the matched document is unchanged. -/
def UpdateContact (store : List Contact) (idParam : String) (p : Contact) : MutResult :=
  if idParam = "" then ⟨0, BadRequest, some ErrorMissingID, store⟩
  else
    match objectIDFromHex idParam with
    | Except.error e => ⟨-1, BadRequest, some e, store⟩
    | Except.ok oid =>
      if p = ⟨none, "", "", "", ""⟩ then ⟨-1, InternalServerError, some ErrorEmptySet, store⟩
      else
        match store.find? (fun c => c.id = some oid) with
        | none => ⟨0, "", none, store⟩
        | some c =>
          if (p.id.getD oid) ≠ oid then
            ⟨-1, InternalServerError,
              some "Performing an update on the path \x27_id\x27 would modify the immutable field \x27_id\x27",
              store⟩
          else if setFields c p = c then ⟨0, "", none, store⟩
          else ⟨1, "", none, updateFirst store oid p⟩

/-- `core.MongoPhoneBook.AddContact`.  `fresh` is the ObjectID the driver
generates when the contact's id is the zero value; inserting a duplicate
`_id` is a duplicate-key error from the server.  On success the message is
`fmt.Sprintf("Inserted ID: %s", id.String()[10:34])`, the 24 hex characters
of the inserted id. -/
def AddContact (store : List Contact) (fresh : String) (contact : Contact) : AddResult :=
  match validateContact contact with
  | some e => ⟨"", BadRequest, some e, store⟩
  | none =>
    let assignedId := contact.id.getD fresh
    if store.any (fun c => c.id = some assignedId) then
      ⟨"", InternalServerError, some "E11000 duplicate key error", store⟩
    else
      ⟨"Inserted ID: " ++ assignedId, "", none,
        store ++ [{ contact with id := some assignedId }]⟩

/-- One mutating call against the repository, with the oracle `fresh` id
the driver would generate for an insert. -/
inductive Op where
  | add (fresh : String) (contact : Contact)
  | update (idParam : String) (p : Contact)
  | delete (idParam : String)
deriving DecidableEq, Repr

/-- The collection state after one mutating call. -/
def step (store : List Contact) : Op → List Contact
  | Op.add fresh contact => (AddContact store fresh contact).newStore
  | Op.update idParam p => (UpdateContact store idParam p).newStore
  | Op.delete idParam => (DeleteContact store idParam).newStore

/-- The collection state after a sequence of mutating calls starting from
the empty collection. -/
def run (ops : List Op) : List Contact := ops.foldl step []

/-- The spec invariant on one persisted contact: non-empty letters-only
first name and non-empty digits-only phone. -/
def goodContact (c : Contact) : Bool := onlyLetters c.firstName && onlyDigits c.phone

/-- The spec invariant on the whole store. -/
def goodStore (store : List Contact) : Bool := store.all goodContact

/-- `server.validateContactSizeInput`: `nil` contact invalid, otherwise
every string field at most `maxSizeProperty` (`config.Static.MaxSizeProperty`)
long. -/
def validateContactSizeInput (maxSizeProperty : Nat) (contact : Option Contact) : Bool :=
  match contact with
  | none => false
  | some c =>
    c.firstName.length ≤ maxSizeProperty && c.lastName.length ≤ maxSizeProperty &&
    c.phone.length ≤ maxSizeProperty && c.address.length ≤ maxSizeProperty

/-- Condition on an operation under which the spec invariant survives an
update: every field the partial contact supplies (non-empty, hence placed
in the `$set` document) that the invariant speaks about is itself
shape-valid.  `AddContact` and `DeleteContact` need no condition. -/
def updateShapeValid : Op → Bool
  | Op.update _ p =>
    (p.firstName = "" || onlyLetters p.firstName) && (p.phone = "" || onlyDigits p.phone)
  | _ => true

end PhoneBook

namespace PhoneBook

theorem objectIDFromHex_nonempty (s : String) (oid : String)
    (h : objectIDFromHex s = Except.ok oid) : s ≠ "" := by
  intro he
  subst he
  simp [objectIDFromHex] at h

theorem find_first_match (pre post : List Contact) (c : Contact) (oid : String)
    (hpre : ∀ d ∈ pre, d.id ≠ some oid) (hc : c.id = some oid) :
    (pre ++ c :: post).find? (fun d => d.id = some oid) = some c := by
  induction pre with
  | nil => simp [List.find?, hc]
  | cons d rest ih =>
    have hd : d.id ≠ some oid := hpre d (by simp)
    rw [List.cons_append, List.find?_cons_of_neg _ (by simp [hd])]
    exact ih (fun e he => hpre e (by simp [he]))

theorem updateFirst_append (pre post : List Contact) (c : Contact) (oid : String) (p : Contact)
    (hpre : ∀ d ∈ pre, d.id ≠ some oid) (hc : c.id = some oid) :
    updateFirst (pre ++ c :: post) oid p = pre ++ setFields c p :: post := by
  induction pre with
  | nil => simp [updateFirst, hc]
  | cons d rest ih =>
    have hd : d.id ≠ some oid := hpre d (by simp)
    simp only [List.cons_append, updateFirst, if_neg hd, List.append_eq]
    rw [ih (fun e he => hpre e (by simp [he]))]

theorem validateContact_good (c : Contact) (h : validateContact c = none) :
    goodContact c = true := by
  simp only [validateContact] at h
  split_ifs at h with h1 h2 h3 h4 h5
  simp only [goodContact, Bool.and_eq_true]
  constructor
  · simpa using h2
  · simpa using h5

theorem goodContact_setFields (c p : Contact) (hc : goodContact c = true)
    (hf : p.firstName = "" ∨ onlyLetters p.firstName = true)
    (hp : p.phone = "" ∨ onlyDigits p.phone = true) :
    goodContact (setFields c p) = true := by
  simp only [goodContact, Bool.and_eq_true] at hc ⊢
  constructor
  · rcases hf with h | h
    · simp [setFields, h, hc.1]
    · by_cases he : p.firstName = "" <;> simp [setFields, he, hc.1, h]
  · rcases hp with h | h
    · simp [setFields, h, hc.2]
    · by_cases he : p.phone = "" <;> simp [setFields, he, hc.2, h]

theorem mem_eraseFirst (store : List Contact) (oid : String) (c : Contact)
    (h : c ∈ eraseFirst store oid) : c ∈ store := by
  induction store with
  | nil => simp [eraseFirst] at h
  | cons d rest ih =>
    by_cases hd : d.id = some oid
    · simp only [eraseFirst, if_pos hd] at h
      exact List.mem_cons_of_mem d h
    · simp only [eraseFirst, if_neg hd, List.mem_cons] at h
      rcases h with h | h
      · simp [h]
      · exact List.mem_cons_of_mem d (ih h)

theorem mem_updateFirst (store : List Contact) (oid : String) (p : Contact) (c : Contact)
    (h : c ∈ updateFirst store oid p) :
    c ∈ store ∨ ∃ d ∈ store, c = setFields d p := by
  induction store with
  | nil => simp [updateFirst] at h
  | cons d rest ih =>
    by_cases hd : d.id = some oid
    · simp only [updateFirst, if_pos hd, List.mem_cons] at h
      rcases h with h | h
      · exact Or.inr ⟨d, by simp, h⟩
      · exact Or.inl (List.mem_cons_of_mem d h)
    · simp only [updateFirst, if_neg hd, List.mem_cons] at h
      rcases h with h | h
      · exact Or.inl (by simp [h])
      · rcases ih h with h2 | ⟨e, he, hce⟩
        · exact Or.inl (List.mem_cons_of_mem d h2)
        · exact Or.inr ⟨e, List.mem_cons_of_mem d he, hce⟩

theorem goodStore_mem (store : List Contact) :
    goodStore store = true ↔ ∀ c ∈ store, goodContact c = true := by
  simp [goodStore, List.all_eq_true]

theorem step_good (store : List Contact) (op : Op)
    (hs : goodStore store = true) (hop : updateShapeValid op = true) :
    goodStore (step store op) = true := by
  cases op with
  | add fresh contact =>
    rcases hv : validateContact contact with _ | e
    · by_cases hdup : store.any (fun c => c.id = some (contact.id.getD fresh)) = true
      · simpa [step, AddContact, hv, hdup] using hs
      · rw [goodStore_mem]
        intro c hc
        rw [Bool.not_eq_true] at hdup
        simp [step, AddContact, hv, hdup] at hc
        rcases hc with hc | hc
        · exact (goodStore_mem store).1 hs c hc
        · subst hc
          have hg := validateContact_good contact hv
          simpa [goodContact] using hg
    · simpa [step, AddContact, hv] using hs
  | update idParam p =>
    simp only [updateShapeValid, Bool.and_eq_true, Bool.or_eq_true, decide_eq_true_eq] at hop
    by_cases hne : idParam = ""
    · simpa [step, UpdateContact, hne] using hs
    · rcases hox : objectIDFromHex idParam with e | oid
      · simpa [step, UpdateContact, hne, hox] using hs
      · by_cases hempty : p = (⟨none, "", "", "", ""⟩ : Contact)
        · simpa [step, UpdateContact, hne, hox, hempty] using hs
        · rcases hfind : store.find? (fun c => c.id = some oid) with _ | c
          · simpa [step, UpdateContact, hne, hox, hempty, hfind] using hs
          · by_cases hid : (p.id.getD oid) = oid
            · by_cases hset : setFields c p = c
              · simpa [step, UpdateContact, hne, hox, hempty, hfind, hid, hset] using hs
              · rw [goodStore_mem]
                intro d hd
                simp [step, UpdateContact, hne, hox, hempty, hfind, hid, hset] at hd
                rcases mem_updateFirst store oid p d hd with h | ⟨e, he, hde⟩
                · exact (goodStore_mem store).1 hs d h
                · subst hde
                  exact goodContact_setFields e p ((goodStore_mem store).1 hs e he)
                    hop.1 hop.2
            · simpa [step, UpdateContact, hne, hox, hempty, hfind, hid] using hs
  | delete idParam =>
    by_cases hne : idParam = ""
    · simpa [step, DeleteContact, hne] using hs
    · rcases hox : objectIDFromHex idParam with e | oid
      · simpa [step, DeleteContact, hne, hox] using hs
      · by_cases hany : store.any (fun c => c.id = some oid) = true
        · rw [goodStore_mem]
          intro c hc
          simp [step, DeleteContact, hne, hox, hany] at hc
          exact (goodStore_mem store).1 hs c (mem_eraseFirst store oid c hc)
        · simpa [step, DeleteContact, hne, hox, hany] using hs

theorem foldl_step_good (ops : List Op) : ∀ store : List Contact, goodStore store = true →
    (∀ op ∈ ops, updateShapeValid op = true) → goodStore (ops.foldl step store) = true := by
  induction ops with
  | nil => intro store hs _; simpa using hs
  | cons op rest ih =>
    intro store hs h
    exact ih (step store op) (step_good store op hs (h op (by simp)))
      (fun o ho => h o (by simp [ho]))

end PhoneBook

namespace PhoneBook

/-- Claim C1 as stated is false: starting from the empty store, `AddContact`
inserts a valid contact, and `UpdateContact` — which performs no contact
validation — then overwrites its phone with the non-digit string `"x"`,
leaving a persisted contact that violates the invariant. -/
theorem C1_counterexample :
    goodStore (run [Op.add "0123456789abcdef01234567" ⟨none, "ab", "", "1", ""⟩,
      Op.update "0123456789abcdef01234567" ⟨none, "", "", "x", ""⟩]) = false := by decide

/-- Claim C1, amended: the validation predicate (non-empty letters-only
first name, non-empty digits-only phone) holds of every contact in the
store after any sequence of repository operations from the empty store,
PROVIDED every `UpdateContact` in the sequence supplies only shape-valid
values for the first-name and phone fields it sets; `AddContact` and
`DeleteContact` preserve it unconditionally, but a raw `UpdateContact`
can break it since it never calls `validateContact`. -/
theorem C1_invariant_shapeValidUpdates (ops : List Op)
    (h : ∀ op ∈ ops, updateShapeValid op = true) :
    goodStore (run ops) = true :=
  foldl_step_good ops [] rfl h

/-- Witness for C1: a concrete add-then-valid-update run keeps the store valid. -/
theorem C1_invariant_witness :
    goodStore (run [Op.add "0123456789abcdef01234567" ⟨none, "ab", "", "1", ""⟩,
      Op.update "0123456789abcdef01234567" ⟨none, "cd", "", "2", ""⟩]) = true :=
  C1_invariant_shapeValidUpdates
    [Op.add "0123456789abcdef01234567" ⟨none, "ab", "", "1", ""⟩,
      Op.update "0123456789abcdef01234567" ⟨none, "cd", "", "2", ""⟩]
    (by decide)

/-- Claim C2: `AddContact` validates before inserting, the five checks in
the fixed source order — missing first name, invalid first name, invalid
last name (when present), missing phone, invalid phone — the first failing
check fixes the returned error, the store is unchanged on any validation
failure, and when all checks pass the contact is inserted and the message
carries the new identifier. -/
theorem C2_addContact_validation_order (store : List Contact) (fresh : String) (c : Contact) :
    (c.firstName = "" →
      AddContact store fresh c = ⟨"", BadRequest, some ErrorMissingFirstName, store⟩) ∧
    (c.firstName ≠ "" → onlyLetters c.firstName = false →
      AddContact store fresh c = ⟨"", BadRequest, some ErrorInvalidFirstName, store⟩) ∧
    (onlyLetters c.firstName = true → c.lastName ≠ "" → onlyLetters c.lastName = false →
      AddContact store fresh c = ⟨"", BadRequest, some ErrorInvalidLastName, store⟩) ∧
    (onlyLetters c.firstName = true → (c.lastName = "" ∨ onlyLetters c.lastName = true) →
      c.phone = "" →
      AddContact store fresh c = ⟨"", BadRequest, some ErrorMissingPhone, store⟩) ∧
    (onlyLetters c.firstName = true → (c.lastName = "" ∨ onlyLetters c.lastName = true) →
      c.phone ≠ "" → onlyDigits c.phone = false →
      AddContact store fresh c = ⟨"", BadRequest, some ErrorInvalidPhone, store⟩) ∧
    (validateContact c = none →
      store.any (fun d => d.id = some (c.id.getD fresh)) = false →
      AddContact store fresh c = ⟨"Inserted ID: " ++ (c.id.getD fresh), "", none,
        store ++ [{ c with id := some (c.id.getD fresh) }]⟩) := by
  have hme : onlyLetters "" = false := rfl
  refine ⟨fun h1 => ?_, fun h1 h2 => ?_, fun h1 h2 h3 => ?_, fun h1 h2 h3 => ?_,
    fun h1 h2 h3 h4 => ?_, fun hv hdup => ?_⟩
  · simp [AddContact, validateContact, h1]
  · simp [AddContact, validateContact, h1, h2]
  · have hne : c.firstName ≠ "" := fun h => by rw [h] at h1; exact absurd h1 (by simp [hme])
    simp [AddContact, validateContact, hne, h1, h2, h3]
  · have hne : c.firstName ≠ "" := fun h => by rw [h] at h1; exact absurd h1 (by simp [hme])
    rcases h2 with h2 | h2 <;> simp [AddContact, validateContact, hne, h1, h2, h3]
  · have hne : c.firstName ≠ "" := fun h => by rw [h] at h1; exact absurd h1 (by simp [hme])
    rcases h2 with h2 | h2 <;> simp [AddContact, validateContact, hne, h1, h2, h3, h4]
  · simp [AddContact, hv, hdup]

/-- Witness for C2: a contact with a letters-only first name and the
non-digit phone `"1x"` is rejected with `ErrorInvalidPhone` and the store
is unchanged. -/
theorem C2_witness :
    AddContact [] "0123456789abcdef01234567" ⟨none, "ab", "cd", "1x", ""⟩ =
      ⟨"", BadRequest, some ErrorInvalidPhone, []⟩ :=
  (C2_addContact_validation_order [] "0123456789abcdef01234567"
      ⟨none, "ab", "cd", "1x", ""⟩).2.2.2.2.1
    (by decide) (Or.inr (by decide)) (by decide) (by decide)

/-- Claim C3 as stated is false: the page parameter `"-1"` is neither
missing, empty, the literal `"0"`, nor non-numeric, so the claim asserts a
successful (empty, error-free) result on the empty store; but the program
computes the negative skip `(-1-1)*10`, the find command rejects it, and
`GetContactWithPagination` returns the `InternalServerError` branch with a
non-nil error. -/
theorem C3_counterexample :
    (GetContactWithPagination 10 [] ["-1"]).err ≠ none ∧
    (GetContactWithPagination 10 [] ["-1"]).errorKind = InternalServerError ∧
    (GetContactWithPagination 10 [] ["-1"]).contacts = [] := by decide

/-- Claim C3, amended: a missing or empty page parameter defaults to page
1; the literal `"0"`, a non-numeric first value and a digit string out of
the 64-bit integer range yield a bad-request error with no contacts; a
parsed page `p ≥ 1` yields at most `limitPerPage` contacts after skipping
`(p-1)*limitPerPage` stored contacts, with a page beyond the available
data yielding the empty sequence with no error; a parsed page `p ≤ 0`
other than the literal `"0"` (such as `"-1"` or `"00"`) makes the find
command reject the negative skip, an internal-server error with no
contacts. -/
theorem C3_pagination_spec (limitPerPage : Nat) (store : List Contact) (pageParam : List String) :
    (pageParam = [] →
      GetContactWithPagination limitPerPage store pageParam = ⟨store.take limitPerPage, "", none⟩) ∧
    (∀ rest, pageParam = "" :: rest →
      GetContactWithPagination limitPerPage store pageParam = ⟨store.take limitPerPage, "", none⟩) ∧
    (∀ rest, pageParam = "0" :: rest →
      (GetContactWithPagination limitPerPage store pageParam).contacts = [] ∧
      (GetContactWithPagination limitPerPage store pageParam).errorKind = BadRequest ∧
      (GetContactWithPagination limitPerPage store pageParam).err ≠ none) ∧
    (∀ s rest, pageParam = s :: rest → s ≠ "" → atoi s = none →
      (GetContactWithPagination limitPerPage store pageParam).contacts = [] ∧
      (GetContactWithPagination limitPerPage store pageParam).errorKind = BadRequest ∧
      (GetContactWithPagination limitPerPage store pageParam).err ≠ none) ∧
    (∀ s rest page, pageParam = s :: rest → s ≠ "" → s ≠ "0" → atoi s = some page →
      1 ≤ page →
      GetContactWithPagination limitPerPage store pageParam =
        ⟨(store.drop ((page - 1) * limitPerPage).toNat).take limitPerPage, "", none⟩ ∧
      (GetContactWithPagination limitPerPage store pageParam).contacts.length ≤ limitPerPage ∧
      (store.length ≤ ((page - 1) * limitPerPage).toNat →
        (GetContactWithPagination limitPerPage store pageParam).contacts = [])) ∧
    (∀ s rest page, pageParam = s :: rest → s ≠ "" → s ≠ "0" → atoi s = some page →
      page ≤ 0 → 0 < limitPerPage →
      (GetContactWithPagination limitPerPage store pageParam).contacts = [] ∧
      (GetContactWithPagination limitPerPage store pageParam).errorKind = InternalServerError ∧
      (GetContactWithPagination limitPerPage store pageParam).err ≠ none) := by
  refine ⟨fun h => ?_, fun rest h => ?_, fun rest h => ?_, fun s rest h hne hnone => ?_,
    fun s rest page h hne h0 hsome hpos => ?_, fun s rest page h hne h0 hsome hneg hlim => ?_⟩
  · subst h
    simp [GetContactWithPagination, validatePageParam, mongoFindPage]
  · subst h
    simp [GetContactWithPagination, validatePageParam, mongoFindPage]
  · subst h
    simp [GetContactWithPagination, validatePageParam]
  · subst h
    have h0 : s ≠ "0" := by
      intro he; subst he; exact absurd hnone (by decide)
    simp [GetContactWithPagination, validatePageParam, hne, h0, hnone]
  · subst h
    have hskip : ¬ ((page - 1) * (limitPerPage : Int) < 0) := by
      have := mul_nonneg (by omega : (0 : Int) ≤ page - 1)
        (by positivity : (0 : Int) ≤ (limitPerPage : Int))
      omega
    have heq : GetContactWithPagination limitPerPage store (s :: rest) =
        ⟨(store.drop ((page - 1) * limitPerPage).toNat).take limitPerPage, "", none⟩ := by
      simp [GetContactWithPagination, validatePageParam, hne, h0, hsome, mongoFindPage, hskip]
    refine ⟨heq, ?_, ?_⟩
    · rw [heq]
      simp
    · intro hbeyond
      rw [heq]
      simp [List.drop_eq_nil_of_le hbeyond]
  · subst h
    have hskip : (page - 1) * (limitPerPage : Int) < 0 := by
      have : (page - 1 : Int) < 0 := by omega
      exact mul_neg_of_neg_of_pos this (by exact_mod_cast hlim)
    refine ⟨?_, ?_, ?_⟩ <;>
      simp [GetContactWithPagination, validatePageParam, hne, h0, hsome, mongoFindPage, hskip]

/-- Witness for C3: with page size 1 and two stored contacts, page `"2"`
returns exactly the second contact. -/
theorem C3_witness :
    GetContactWithPagination 1
        [⟨some "aa", "ab", "", "1", ""⟩, ⟨some "bb", "cd", "", "2", ""⟩] ["2"] =
      ⟨[⟨some "bb", "cd", "", "2", ""⟩], "", none⟩ ∧
    (GetContactWithPagination 1
        [⟨some "aa", "ab", "", "1", ""⟩, ⟨some "bb", "cd", "", "2", ""⟩] ["2"]).contacts.length ≤ 1 ∧
    ([⟨some "aa", "ab", "", "1", ""⟩, (⟨some "bb", "cd", "", "2", ""⟩ : Contact)].length ≤
        ((2 - 1) * 1 : Int).toNat →
      (GetContactWithPagination 1
        [⟨some "aa", "ab", "", "1", ""⟩, ⟨some "bb", "cd", "", "2", ""⟩] ["2"]).contacts = []) :=
  (C3_pagination_spec 1 [⟨some "aa", "ab", "", "1", ""⟩, ⟨some "bb", "cd", "", "2", ""⟩]
      ["2"]).2.2.2.2.1 "2" [] 2 rfl (by decide) (by decide) (by decide) (by decide)

end PhoneBook

namespace PhoneBook

/-- Claim C4 as stated is false at the all-zero partial contact: a PUT
with body `{}` decodes to a contact with every field zero, whose bson
encoding is the empty `$set` document; the server rejects it with a
FailedToParse error, so on a well-formed id matching no stored document
the program returns count -1 with an InternalServerError, not modified
count 0 with a nil error. -/
theorem C4_counterexample :
    UpdateContact [] "0123456789abcdef01234567" ⟨none, "", "", "", ""⟩ =
      ⟨-1, InternalServerError, some ErrorEmptySet, []⟩ := by decide

/-- Claim C4, amended: `UpdateContact` fails with the MissingID error on an
empty id; fails with a bad-request error on a non-empty id that is not a
well-formed 24-hex identifier; returns modified count 0 with a nil error
when a well-formed id matches no stored document, PROVIDED the partial
contact supplies at least one field — the all-zero partial contact encodes
as an empty `$set` document, which the server rejects, giving count -1
with an internal-server error instead.  The store is unchanged in each
case. -/
theorem C4_updateContact_errors (store : List Contact) (p : Contact) :
    (UpdateContact store "" p = ⟨0, BadRequest, some ErrorMissingID, store⟩) ∧
    (∀ idParam e, idParam ≠ "" → objectIDFromHex idParam = Except.error e →
      UpdateContact store idParam p = ⟨-1, BadRequest, some e, store⟩) ∧
    (∀ idParam oid, objectIDFromHex idParam = Except.ok oid →
      p ≠ (⟨none, "", "", "", ""⟩ : Contact) →
      store.find? (fun c => c.id = some oid) = none →
      UpdateContact store idParam p = ⟨0, "", none, store⟩) ∧
    (∀ idParam oid, objectIDFromHex idParam = Except.ok oid →
      p = (⟨none, "", "", "", ""⟩ : Contact) →
      UpdateContact store idParam p = ⟨-1, InternalServerError, some ErrorEmptySet, store⟩) := by
  refine ⟨rfl, fun idParam e hne herr => ?_, fun idParam oid hok hempty hfind => ?_,
    fun idParam oid hok hempty => ?_⟩
  · simp [UpdateContact, hne, herr]
  · have hne := objectIDFromHex_nonempty idParam oid hok
    simp [UpdateContact, hne, hok, hempty, hfind]
  · have hne := objectIDFromHex_nonempty idParam oid hok
    simp [UpdateContact, hne, hok, hempty]

/-- Witness for C4: the malformed id `"zz"` makes `UpdateContact` return
count -1, BadRequest and the ObjectID error, and a well-formed unmatched
id with a non-empty partial contact on an empty store returns count 0
with no error. -/
theorem C4_witness :
    UpdateContact [] "zz" ⟨none, "cd", "", "", ""⟩ =
      ⟨-1, BadRequest, some ErrorInvalidObjectID, []⟩ ∧
    UpdateContact [] "0123456789abcdef01234567" ⟨none, "cd", "", "", ""⟩ =
      ⟨0, "", none, []⟩ :=
  ⟨(C4_updateContact_errors [] ⟨none, "cd", "", "", ""⟩).2.1 "zz" ErrorInvalidObjectID
      (by decide) rfl,
    (C4_updateContact_errors [] ⟨none, "cd", "", "", ""⟩).2.2.1 "0123456789abcdef01234567"
      "0123456789abcdef01234567" rfl (by decide) (by decide)⟩

/-- Claim C5: `DeleteContact` fails with the MissingID error on an empty id;
any id whose length differs from 24 yields exactly the error message
`the provided hex string is not a valid ObjectID` with count -1; a
well-formed id that matches no stored document yields deleted count 0 with
a nil error; the store is unchanged in every one of these cases. -/
theorem C5_deleteContact_errors (store : List Contact) :
    (DeleteContact store "" = ⟨0, BadRequest, some ErrorMissingID, store⟩) ∧
    (∀ idParam, idParam ≠ "" → idParam.data.length ≠ 24 →
      DeleteContact store idParam = ⟨-1, BadRequest, some ErrorInvalidObjectID, store⟩) ∧
    (∀ idParam oid, objectIDFromHex idParam = Except.ok oid →
      store.any (fun c => c.id = some oid) = false →
      DeleteContact store idParam = ⟨0, "", none, store⟩) := by
  refine ⟨rfl, fun idParam hne hlen => ?_, fun idParam oid hok hany => ?_⟩
  · have hlen2 : idParam.length ≠ 24 := hlen
    simp [DeleteContact, hne, objectIDFromHex, hlen2]
  · have hne := objectIDFromHex_nonempty idParam oid hok
    simp [DeleteContact, hne, hok, hany]

/-- Witness for C5: the non-hex id `"1234567"` (length 7) gets the exact
ObjectID error message, and a well-formed id absent from the store deletes
nothing with no error. -/
theorem C5_witness :
    DeleteContact [] "1234567" = ⟨-1, BadRequest, some ErrorInvalidObjectID, []⟩ ∧
    DeleteContact [] "123412341234123412341234" = ⟨0, "", none, []⟩ :=
  ⟨(C5_deleteContact_errors []).2.1 "1234567" (by decide) (by decide),
    (C5_deleteContact_errors []).2.2 "123412341234123412341234" "123412341234123412341234"
      rfl (by decide)⟩

end PhoneBook

namespace PhoneBook

/-- Claim C6: when `UpdateContact` succeeds on a matched document, the new
store replaces that document by `setFields`, which overwrites exactly the
fields the partial contact supplies with a non-empty value, keeps every
zero-valued field at its stored value, and never changes the identifier. -/
theorem C6_update_partial_fields (idParam oid : String) (p c : Contact)
    (pre post : List Contact)
    (hok : objectIDFromHex idParam = Except.ok oid)
    (hpre : ∀ d ∈ pre, d.id ≠ some oid) (hc : c.id = some oid)
    (herr : (UpdateContact (pre ++ c :: post) idParam p).err = none) :
    (UpdateContact (pre ++ c :: post) idParam p).newStore = pre ++ setFields c p :: post ∧
    (setFields c p).id = c.id ∧
    (p.firstName = "" → (setFields c p).firstName = c.firstName) ∧
    (p.firstName ≠ "" → (setFields c p).firstName = p.firstName) ∧
    (p.lastName = "" → (setFields c p).lastName = c.lastName) ∧
    (p.lastName ≠ "" → (setFields c p).lastName = p.lastName) ∧
    (p.phone = "" → (setFields c p).phone = c.phone) ∧
    (p.phone ≠ "" → (setFields c p).phone = p.phone) ∧
    (p.address = "" → (setFields c p).address = c.address) ∧
    (p.address ≠ "" → (setFields c p).address = p.address) := by
  have hne := objectIDFromHex_nonempty idParam oid hok
  have hfind := find_first_match pre post c oid hpre hc
  refine ⟨?_, rfl, fun h => by simp [setFields, h], fun h => by simp [setFields, h],
    fun h => by simp [setFields, h], fun h => by simp [setFields, h],
    fun h => by simp [setFields, h], fun h => by simp [setFields, h],
    fun h => by simp [setFields, h], fun h => by simp [setFields, h]⟩
  by_cases hempty : p = (⟨none, "", "", "", ""⟩ : Contact)
  · simp [UpdateContact, hne, hok, hempty] at herr
  by_cases hid : (p.id.getD oid) = oid
  · by_cases hset : setFields c p = c
    · simp [UpdateContact, hne, hok, hempty, hfind, hid, hset]
    · simp [UpdateContact, hne, hok, hempty, hfind, hid, hset,
        updateFirst_append pre post c oid p hpre hc]
  · simp [UpdateContact, hne, hok, hempty, hfind, hid] at herr

/-- Witness for C6: updating a stored contact with a partial contact that
supplies only a last name overwrites the last name and keeps the id, first
name, phone and address. -/
theorem C6_witness :
    (UpdateContact [⟨some "0123456789abcdef01234567", "ab", "cd", "1", "adr"⟩]
        "0123456789abcdef01234567" ⟨none, "", "ef", "", ""⟩).newStore =
      [setFields ⟨some "0123456789abcdef01234567", "ab", "cd", "1", "adr"⟩
        ⟨none, "", "ef", "", ""⟩] ∧
    (setFields ⟨some "0123456789abcdef01234567", "ab", "cd", "1", "adr"⟩
        ⟨none, "", "ef", "", ""⟩).id = some "0123456789abcdef01234567" ∧
    (setFields ⟨some "0123456789abcdef01234567", "ab", "cd", "1", "adr"⟩
        ⟨none, "", "ef", "", ""⟩).firstName = "ab" ∧
    (setFields ⟨some "0123456789abcdef01234567", "ab", "cd", "1", "adr"⟩
        ⟨none, "", "ef", "", ""⟩).lastName = "ef" := by
  have h := C6_update_partial_fields "0123456789abcdef01234567" "0123456789abcdef01234567"
    ⟨none, "", "ef", "", ""⟩ ⟨some "0123456789abcdef01234567", "ab", "cd", "1", "adr"⟩
    [] [] rfl (by simp) rfl (by decide)
  exact ⟨by simpa using h.1, h.2.1, h.2.2.1 rfl, h.2.2.2.2.2.1 (by decide)⟩

/-- Claim C7 as stated is false at an empty query value: for the query
`lastName=` (first value `""`) against a store holding a contact whose
last name IS the empty string, the contact's field equals the provided
first value, so the claim says it is returned; but `omitempty` storage
omits the empty field from the stored document and a BSON equality filter
on `""` never matches an absent field, so the program returns nothing. -/
theorem C7_counterexample :
    (⟨some "aa", "ab", "", "1", ""⟩ : Contact).lastName = "" ∧
    (⟨some "aa", "ab", "", "1", ""⟩ : Contact) ∈ [(⟨some "aa", "ab", "", "1", ""⟩ : Contact)] ∧
    (SearchContact 10 [⟨some "aa", "ab", "", "1", ""⟩] [("lastName", [""])]).contacts = [] := by
  decide

/-- Claim C7, amended: with a non-empty query map (every key of
`url.Values` maps to a non-empty value list and keys are distinct),
`SearchContact` returns, with no error, exactly the stored contacts which,
under every provided key, carry that field NON-EMPTY and equal to the
FIRST value listed — later values of a repeated parameter are ignored, and
an empty query value matches nothing because `omitempty` storage omits
empty fields — each returned contact intact; when nothing matches the
result is the empty sequence with no error. -/
theorem C7_search_exact_match (limitPerPage : Nat) (store : List Contact)
    (query : List (String × List String)) (hq : query ≠ [])
    ( _hvals : ∀ kv ∈ query, kv.2 ≠ []) ( _hkeys : (query.map Prod.fst).Nodup) :
    (SearchContact limitPerPage store query).errorKind = "" ∧
    (SearchContact limitPerPage store query).err = none ∧
    (∀ c, c ∈ (SearchContact limitPerPage store query).contacts ↔
      c ∈ store ∧ ∀ kv ∈ query, contactFieldMatch c kv.1 (kv.2.headD "") = true) ∧
    ((∀ c ∈ store, matchesQuery query c = false) →
      (SearchContact limitPerPage store query).contacts = []) := by
  have hne : query.isEmpty = false := by simp [List.isEmpty_iff, hq]
  refine ⟨by simp [SearchContact, hne], by simp [SearchContact, hne], fun c => ?_,
    fun hnomatch => ?_⟩
  · simp [SearchContact, hne, List.mem_filter, matchesQuery, List.all_eq_true]
  · simp [SearchContact, hne, List.filter_eq_nil_iff]
    intro c hc
    simp [hnomatch c hc]

/-- Witness for C7: the query `firstName=jojo` against a store holding one
contact named jojo returns exactly that contact with all fields intact. -/
theorem C7_witness :
    (SearchContact 10 [⟨some "aa", "jojo", "hey", "0541112223", "TelAviv"⟩]
        [("firstName", ["jojo"])]).err = none ∧
    (⟨some "aa", "jojo", "hey", "0541112223", "TelAviv"⟩ : Contact) ∈
      (SearchContact 10 [⟨some "aa", "jojo", "hey", "0541112223", "TelAviv"⟩]
        [("firstName", ["jojo"])]).contacts := by
  have h := C7_search_exact_match 10 [⟨some "aa", "jojo", "hey", "0541112223", "TelAviv"⟩]
    [("firstName", ["jojo"])] (by decide) (by decide) (by decide)
  exact ⟨h.2.1, (h.2.2.1 _).2 ⟨by simp, by decide⟩⟩

/-- Claim C8: `SearchContact` on the empty query map returns the very same
(contacts, errorKind, error) triple as `GetContactWithPagination` on the
single-element page list `["1"]` — the code delegates directly. -/
theorem C8_search_empty_delegates (limitPerPage : Nat) (store : List Contact) :
    SearchContact limitPerPage store [] = GetContactWithPagination limitPerPage store ["1"] := rfl

/-- Claim C9: the handler field-size validator is false on a nil contact
and otherwise true iff every one of the four string fields has length at
most the configured maximum. -/
theorem C9_size_validator (maxSizeProperty : Nat) :
    validateContactSizeInput maxSizeProperty none = false ∧
    ∀ c : Contact, (validateContactSizeInput maxSizeProperty (some c) = true ↔
      c.firstName.length ≤ maxSizeProperty ∧ c.lastName.length ≤ maxSizeProperty ∧
      c.phone.length ≤ maxSizeProperty ∧ c.address.length ≤ maxSizeProperty) := by
  refine ⟨rfl, fun c => ?_⟩
  simp [validateContactSizeInput, Bool.and_eq_true, decide_eq_true_eq, and_assoc]

/-- Claim C10: for a non-empty id that is not a well-formed identifier,
both `DeleteContact` and `UpdateContact` return count -1 (not 0) with the
BadRequest kind and a non-nil error, and a count of 0 together with a
non-nil error happens only for the empty-id case. -/
theorem C10_malformed_id_count (store : List Contact) (p : Contact) (idParam : String) :
    (∀ e, objectIDFromHex idParam = Except.error e → idParam ≠ "" →
      DeleteContact store idParam = ⟨-1, BadRequest, some e, store⟩ ∧
      UpdateContact store idParam p = ⟨-1, BadRequest, some e, store⟩) ∧
    ((DeleteContact store idParam).count = 0 → (DeleteContact store idParam).err ≠ none →
      idParam = "") ∧
    ((UpdateContact store idParam p).count = 0 → (UpdateContact store idParam p).err ≠ none →
      idParam = "") := by
  refine ⟨fun e herr hne => ⟨by simp [DeleteContact, hne, herr], by simp [UpdateContact, hne, herr]⟩,
    fun hc he => ?_, fun hc he => ?_⟩
  · by_contra hne
    rcases hok : objectIDFromHex idParam with e | oid
    · simp [DeleteContact, hne, hok] at hc
    · simp [DeleteContact, hne, hok] at he
      split at he <;> exact he rfl
  · by_contra hne
    rcases hok : objectIDFromHex idParam with e | oid
    · simp [UpdateContact, hne, hok] at hc
    · by_cases hempty : p = (⟨none, "", "", "", ""⟩ : Contact)
      · simp [UpdateContact, hne, hok, hempty] at hc
      · rcases hfind : store.find? (fun c => c.id = some oid) with _ | c
        · simp [UpdateContact, hne, hok, hempty, hfind] at he
        · by_cases hid : (p.id.getD oid) = oid
          · by_cases hset : setFields c p = c <;>
              simp [UpdateContact, hne, hok, hempty, hfind, hid, hset] at he
          · simp [UpdateContact, hne, hok, hempty, hfind, hid] at hc

/-- Witness for C10: the malformed id `"zz"` drives both operations to the
count -1, BadRequest, ObjectID-error outcome on a singleton store. -/
theorem C10_witness :
    DeleteContact [⟨some "aa", "ab", "", "1", ""⟩] "zz" =
      ⟨-1, BadRequest, some ErrorInvalidObjectID, [⟨some "aa", "ab", "", "1", ""⟩]⟩ ∧
    UpdateContact [⟨some "aa", "ab", "", "1", ""⟩] "zz" ⟨none, "cd", "", "", ""⟩ =
      ⟨-1, BadRequest, some ErrorInvalidObjectID, [⟨some "aa", "ab", "", "1", ""⟩]⟩ :=
  (C10_malformed_id_count [⟨some "aa", "ab", "", "1", ""⟩] ⟨none, "cd", "", "", ""⟩ "zz").1
    ErrorInvalidObjectID rfl (by decide)

end PhoneBook
